import Mathlib

/-!
Verification of the quota-governed fetch-and-deduplicate pipeline of the
`listing` repository (files `scraper.py`, `parse_resume_with_ai.py`,
`resume_parser.py`).

Modelling conventions of the shallow embedding:

* Instants (Python `datetime` values) are modelled as natural numbers of
  seconds since an epoch; `datetime.date()` is integer division by 86400,
  so a calendar date is a natural number of days.
* ISO strings produced by `isoformat()` are modelled as little-endian lists
  of decimal digits (`encNat`); `datetime.fromisoformat` on a string is
  `decNat`.  Applied to a value that is *not* a string (a `datetime`
  object), `fromisoformat` raises `TypeError`; the embedding models this
  explicitly where it happens.
* The persisted `quota_state.json` file is an `Option QuotaFile`
  (`none` = the file does not exist).  Functions that in Python perform
  file I/O take the current file contents as an argument and return the
  file contents after the call, so effects are explicit.
* `time.sleep` calls are recorded as a list of requested durations; the
  value of `datetime.now()` after each potential sleep is supplied by
  oracle arguments (`now1`, `now2`), since real time is outside the model.
* Python truthiness on strings/str-options (`if company_name:` etc.) is
  modelled explicitly (`none` and the empty string are falsy).
-/

/-- Seconds in one day; `datetime.date()` of an instant modelled in seconds. -/
def dateOf (t : Nat) : Nat := t / 86400

/-- Little-endian decimal digits of `n`, with `fuel` bounding the recursion
(called with `fuel = n`, which always suffices).  Models `isoformat()`:
the decimal-digit string of an instant or date. -/
def digitsAux : Nat → Nat → List Nat
  | 0, _ => []
  | _ + 1, 0 => []
  | fuel + 1, n + 1 => (n + 1) % 10 :: digitsAux fuel ((n + 1) / 10)

/-- Model of `isoformat()`: serialize a natural number (instant or date) to
its decimal-digit string, little-endian. -/
def encNat (n : Nat) : List Nat := digitsAux n n

/-- Model of `datetime.fromisoformat` applied to a string: read back the
number from its decimal-digit string. -/
def decNat (l : List Nat) : Nat := l.foldr (fun d acc => acc * 10 + d) 0

/-- Contents of `quota_state.json` as written by `save_quota_state`:
the date and the timestamps are stored in serialized (string) form. -/
structure QuotaFile where
  daily_request_count : Int
  daily_reset_date : Option (List Nat)
  request_timestamps : List (List Nat)
  deriving DecidableEq, Repr

/-- State dictionary as returned by `load_quota_state`: the timestamps have
been parsed back to `datetime` objects, but `daily_reset_date` is still the
raw ISO string (it is parsed later, inside `check_and_enforce_quota`). -/
structure LoadedState where
  daily_request_count : Int
  daily_reset_date : Option (List Nat)
  request_timestamps : List Nat
  deriving DecidableEq, Repr

/-- Observable outcome of one `check_and_enforce_quota` call: the returned
boolean, the state file after the call, and the durations of the
`time.sleep` calls it performed. -/
structure CheckResult where
  allowed : Bool
  fileAfter : Option QuotaFile
  sleeps : List Int
  deriving DecidableEq, Repr

/-- Smallest element of a non-empty list of naturals (Python `min`). -/
def listMin : List Nat → Nat
  | [] => 0
  | x :: xs => xs.foldl Nat.min x

/-- Largest element of a non-empty list of naturals (Python `max`). -/
def listMax : List Nat → Nat
  | [] => 0
  | x :: xs => xs.foldl Nat.max x

/-- Characters removed by Python `str.strip()` with no argument. -/
def isPySpace (c : Char) : Bool :=
  c = ' ' ∨ c = '\t' ∨ c = '\n' ∨ c = '\r' ∨ c = '\x0b' ∨ c = '\x0c'

/-- Model of Python `str.strip()`: drop leading and trailing whitespace. -/
def strStrip (s : String) : String :=
  ⟨((s.data.dropWhile isPySpace).reverse.dropWhile isPySpace).reverse⟩

/-- Model of Python `str.lower()` (ASCII case folding suffices here). -/
def strLower (s : String) : String := ⟨s.data.map Char.toLower⟩

namespace scraper

/-- Constant `MAX_REQUESTS_PER_MINUTE` of `scraper.py`. -/
def MAX_REQUESTS_PER_MINUTE : Nat := 4

/-- Constant `MAX_REQUESTS_PER_DAY` of `scraper.py`. -/
def MAX_REQUESTS_PER_DAY : Int := 20

/-- Constant `SECONDS_BETWEEN_REQUESTS` of `scraper.py` (60 / 4). -/
def SECONDS_BETWEEN_REQUESTS : Int := 60 / 4

/-- Constant `QUOTA_STATE_FILE` of `scraper.py`. -/
def QUOTA_STATE_FILE : String := "quota_state.json"

/-- Model of `load_quota_state` of `scraper.py`: a missing (or unreadable)
file yields the fresh zero state; otherwise the timestamp strings are
parsed back to instants while the reset date stays a string. -/
def load_quota_state : Option QuotaFile → LoadedState
  | none => { daily_request_count := 0, daily_reset_date := none, request_timestamps := [] }
  | some f =>
    { daily_request_count := f.daily_request_count
      daily_reset_date := f.daily_reset_date
      request_timestamps := f.request_timestamps.map decNat }

/-- Model of `save_quota_state` of `scraper.py`: serialize the reset date
and the timestamps with `isoformat()` and write the file. -/
def save_quota_state (daily_count : Int) (reset_date : Option Nat) (timestamps : List Nat) :
    QuotaFile :=
  { daily_request_count := daily_count
    daily_reset_date := reset_date.map encNat
    request_timestamps := timestamps.map encNat }

/-- New-day reset step of `check_and_enforce_quota` (`scraper.py` lines
90-94): if no reset date is stored or the current date is past it, zero
the daily count, set the reset date to today and clear the timestamps. -/
def resetDaily (count : Int) (reset_date : Option Nat) (timestamps : List Nat) (now : Nat) :
    Int × Nat × List Nat :=
  match reset_date with
  | none => (0, dateOf now, [])
  | some d => if dateOf now > d then (0, dateOf now, []) else (count, d, timestamps)

/-- Model of `check_and_enforce_quota` of `scraper.py`.  `file` is the
current contents of `quota_state.json`; `now0` is `datetime.now()` at
entry, and `now1`, `now2` are the values of `datetime.now()` after the
RPM-limit sleep and the min-spacing sleep respectively (oracles for real
time). -/
def check_and_enforce_quota (file : Option QuotaFile) (now0 now1 now2 : Nat) : CheckResult :=
  let state := load_quota_state file
  let parsed_reset_date : Option Nat := state.daily_reset_date.map decNat
  let current_time := now0
  let r :=
    resetDaily state.daily_request_count parsed_reset_date state.request_timestamps current_time
  if r.1 ≥ MAX_REQUESTS_PER_DAY then
    { allowed := false, fileAfter := file, sleeps := [] }
  else
    let daily_reset_date := r.2.1
    let one_minute_ago : Int := (current_time : Int) - 60
    let request_timestamps := r.2.2.filter fun (ts : Nat) => (ts : Int) > one_minute_ago
    let step1 : List Int × Nat :=
      if request_timestamps.length ≥ MAX_REQUESTS_PER_MINUTE then
        let oldest_request := listMin request_timestamps
        let wait_time : Int := 60 - ((current_time : Int) - (oldest_request : Int))
        if wait_time > 0 then ([wait_time + 1], now1) else ([], current_time)
      else ([], current_time)
    let step2 : List Int × Nat :=
      if request_timestamps ≠ [] then
        let last_request := listMax request_timestamps
        let elapsed : Int := (step1.2 : Int) - (last_request : Int)
        if elapsed < SECONDS_BETWEEN_REQUESTS then
          ([SECONDS_BETWEEN_REQUESTS - elapsed], now2)
        else ([], step1.2)
      else ([], step1.2)
    let request_timestamps := request_timestamps ++ [step2.2]
    let daily_request_count := r.1 + 1
    { allowed := true
      fileAfter := some (save_quota_state daily_request_count (some daily_reset_date)
        request_timestamps)
      sleeps := step1.1 ++ step2.1 }

end scraper

namespace resume

/-- Constant `MAX_REQUESTS_PER_MINUTE` of `parse_resume_with_ai.py`. -/
def MAX_REQUESTS_PER_MINUTE : Nat := 4

/-- Constant `MAX_REQUESTS_PER_DAY` of `parse_resume_with_ai.py`. -/
def MAX_REQUESTS_PER_DAY : Int := 19

/-- Constant `SECONDS_BETWEEN_REQUESTS` of `parse_resume_with_ai.py`. -/
def SECONDS_BETWEEN_REQUESTS : Int := 60 / 4

/-- Constant `QUOTA_STATE_FILE` of `parse_resume_with_ai.py`. -/
def QUOTA_STATE_FILE : String := "quota_state.json"

/-- Model of `load_quota_state` of `parse_resume_with_ai.py` (identical in
behaviour to the copy in `scraper.py`). -/
def load_quota_state : Option QuotaFile → LoadedState
  | none => { daily_request_count := 0, daily_reset_date := none, request_timestamps := [] }
  | some f =>
    { daily_request_count := f.daily_request_count
      daily_reset_date := f.daily_reset_date
      request_timestamps := f.request_timestamps.map decNat }

/-- Model of `save_quota_state` of `parse_resume_with_ai.py`. -/
def save_quota_state (daily_count : Int) (reset_date : Option Nat) (timestamps : List Nat) :
    QuotaFile :=
  { daily_request_count := daily_count
    daily_reset_date := reset_date.map encNat
    request_timestamps := timestamps.map encNat }

/-- New-day reset step of `check_and_enforce_quota` of
`parse_resume_with_ai.py` (lines 79-83). -/
def resetDaily (count : Int) (reset_date : Option Nat) (timestamps : List Nat) (now : Nat) :
    Int × Nat × List Nat :=
  match reset_date with
  | none => (0, dateOf now, [])
  | some d => if dateOf now > d then (0, dateOf now, []) else (count, d, timestamps)

/-- Model of `check_and_enforce_quota` of `parse_resume_with_ai.py`: the
same algorithm as the copy in `scraper.py`, but against this module's
`MAX_REQUESTS_PER_DAY = 19`. -/
def check_and_enforce_quota (file : Option QuotaFile) (now0 now1 now2 : Nat) : CheckResult :=
  let state := load_quota_state file
  let parsed_reset_date : Option Nat := state.daily_reset_date.map decNat
  let current_time := now0
  let r :=
    resetDaily state.daily_request_count parsed_reset_date state.request_timestamps current_time
  if r.1 ≥ MAX_REQUESTS_PER_DAY then
    { allowed := false, fileAfter := file, sleeps := [] }
  else
    let daily_reset_date := r.2.1
    let one_minute_ago : Int := (current_time : Int) - 60
    let request_timestamps := r.2.2.filter fun (ts : Nat) => (ts : Int) > one_minute_ago
    let step1 : List Int × Nat :=
      if request_timestamps.length ≥ MAX_REQUESTS_PER_MINUTE then
        let oldest_request := listMin request_timestamps
        let wait_time : Int := 60 - ((current_time : Int) - (oldest_request : Int))
        if wait_time > 0 then ([wait_time + 1], now1) else ([], current_time)
      else ([], current_time)
    let step2 : List Int × Nat :=
      if request_timestamps ≠ [] then
        let last_request := listMax request_timestamps
        let elapsed : Int := (step1.2 : Int) - (last_request : Int)
        if elapsed < SECONDS_BETWEEN_REQUESTS then
          ([SECONDS_BETWEEN_REQUESTS - elapsed], now2)
        else ([], step1.2)
      else ([], step1.2)
    let request_timestamps := request_timestamps ++ [step2.2]
    let daily_request_count := r.1 + 1
    { allowed := true
      fileAfter := some (save_quota_state daily_request_count (some daily_reset_date)
        request_timestamps)
      sleeps := step1.1 ++ step2.1 }

end resume

/-- Outcome of a failure-path compensating release: whether an uncaught
exception escaped, and the state file after the attempt. -/
structure ReleaseResult where
  raised : Bool
  fileAfter : Option QuotaFile
  deriving DecidableEq, Repr

/-- Model of the timestamp re-parsing in the failure handlers
(`scraper.py` line 208, `parse_resume_with_ai.py` line 177):
`[datetime.fromisoformat(ts) for ts in state.get("request_timestamps", [])]`.
After `load_quota_state` every entry of that list is already a `datetime`
object, not a string, and `datetime.fromisoformat` raises `TypeError`
unless its argument is a string — so the comprehension raises on the first
entry whenever the list is non-empty, and yields `[]` otherwise. -/
def reparse_timestamps (ts : List Nat) : Except Unit (List Nat) :=
  match ts with
  | [] => Except.ok []
  | _ :: _ => Except.error ()

/-- Model of the failure-path release duplicated in
`convert_plain_text_to_markdown_with_ai` (`scraper.py` lines 200-209) and
`parse_resume_with_ai` (`parse_resume_with_ai.py` lines 167-179): reload
the state, floor-decrement the daily count, re-parse the reset date and
the timestamps, and save.  The timestamp re-parsing raises `TypeError`
when any timestamp is recorded (see `reparse_timestamps`), in which case
nothing is saved. -/
def quota_release (file : Option QuotaFile) : ReleaseResult :=
  let state := scraper.load_quota_state file
  let new_count : Int := max 0 (state.daily_request_count - 1)
  let reset_date : Option Nat := state.daily_reset_date.map decNat
  match reparse_timestamps state.request_timestamps with
  | Except.ok timestamps =>
    { raised := false, fileAfter := some (scraper.save_quota_state new_count reset_date timestamps) }
  | Except.error _ => { raised := true, fileAfter := file }

/-- Observable outcome of one `convert_plain_text_to_markdown_with_ai`
call: the value returned to the caller (`Except.error ()` meaning an
exception propagated), the state file afterwards, and whether the quota
check and the external Gemini call were made. -/
structure ConvertResult where
  result : Except Unit String
  fileAfter : Option QuotaFile
  quotaChecked : Bool
  externalCalled : Bool
  deriving Repr

/-- Model of `convert_plain_text_to_markdown_with_ai` (`scraper.py` lines
143-211).  `genResult` is the outcome of the external
`client.models.generate_content` call (`Except.error ()` = the call raised);
`now0`, `now1`, `now2` are the time oracles threaded to the quota check. -/
def convert_plain_text_to_markdown_with_ai (text : String) (file : Option QuotaFile)
    (now0 now1 now2 : Nat) (genResult : Except Unit String) : ConvertResult :=
  if text = "" then
    { result := Except.ok "", fileAfter := file, quotaChecked := false, externalCalled := false }
  else
    let chk := scraper.check_and_enforce_quota file now0 now1 now2
    if chk.allowed = false then
      { result := Except.ok text, fileAfter := chk.fileAfter, quotaChecked := true
        externalCalled := false }
    else
      match genResult with
      | Except.ok t =>
        let markdown_content := strStrip t
        if markdown_content = "" then
          { result := Except.ok text, fileAfter := chk.fileAfter, quotaChecked := true
            externalCalled := true }
        else
          { result := Except.ok markdown_content, fileAfter := chk.fileAfter, quotaChecked := true
            externalCalled := true }
      | Except.error _ =>
        let rel := quota_release chk.fileAfter
        { result := if rel.raised then Except.error () else Except.ok text
          fileAfter := rel.fileAfter, quotaChecked := true, externalCalled := true }

/-- Observable outcome of one `parse_resume_with_ai` call: the value
returned (`Except.ok none` = the `None` returned on quota rejection,
`Except.error ()` = an exception propagated) and the state file after. -/
structure ParseResult where
  result : Except Unit (Option String)
  fileAfter : Option QuotaFile
  deriving Repr

/-- Model of `parse_resume_with_ai` (`parse_resume_with_ai.py` lines
129-180).  On quota rejection it returns `None`; on a failed external call
it attempts the compensating release and then re-raises (`raise`), so the
caller always sees an exception on that path — the `TypeError` from the
release when timestamps are recorded, the original error otherwise. -/
def parse_resume_with_ai (file : Option QuotaFile) (now0 now1 now2 : Nat)
    (genResult : Except Unit String) : ParseResult :=
  let chk := resume.check_and_enforce_quota file now0 now1 now2
  if chk.allowed = false then
    { result := Except.ok none, fileAfter := chk.fileAfter }
  else
    match genResult with
    | Except.ok t => { result := Except.ok (some t), fileAfter := chk.fileAfter }
    | Except.error _ =>
      let rel := quota_release chk.fileAfter
      { result := Except.error (), fileAfter := rel.fileAfter }

/-- Outcome of one HTTP attempt inside the retry loops of
`_fetch_linkedin_job_ids` / `_fetch_linkedin_job_details`: a successful
response, an `HTTPError` with a status code raised by
`raise_for_status()`, or any other `RequestException` (transport
failure, timeout, ...). -/
inductive Outcome where
  | success : Outcome
  | httpError : Nat → Outcome
  | transportError : Outcome
  deriving DecidableEq, Repr

/-- Observable outcome of the retry loop: whether a response was obtained,
how many HTTP attempts were made in total, and the final value of the
`retries` counter. -/
structure FetchResult where
  succeeded : Bool
  attempts : Nat
  retries : Nat
  deriving DecidableEq, Repr

/-- One unrolling of the `while retries <= MAX_RETRIES` loop of
`_fetch_linkedin_job_ids` (`scraper.py` lines 255-283) and
`_fetch_linkedin_job_details` (lines 356-381).  `responses i` is the
outcome of the `i`-th HTTP attempt; `fuel` is `maxRetries + 1 - retries`,
the number of loop iterations still permitted by the loop condition. -/
def fetchLoop (responses : Nat → Outcome) (maxRetries : Nat) :
    Nat → Nat → Nat → FetchResult
  | _, retries, 0 => { succeeded := false, attempts := 0, retries := retries }
  | attempt, retries, fuel + 1 =>
    match responses attempt with
    | Outcome.success => { succeeded := true, attempts := attempt + 1, retries := retries }
    | Outcome.httpError code =>
      if code = 429 ∧ retries < maxRetries then
        fetchLoop responses maxRetries (attempt + 1) (retries + 1) fuel
      else
        { succeeded := false, attempts := attempt + 1, retries := retries }
    | Outcome.transportError =>
      { succeeded := false, attempts := attempt + 1, retries := retries }

/-- Model of one resilient fetch (`scraper.py` lines 254-283 and 355-381):
run the retry loop from `retries = 0`; the loop condition
`retries <= maxRetries` permits at most `maxRetries + 1` iterations. -/
def fetch_with_retries (responses : Nat → Outcome) (maxRetries : Nat) : FetchResult :=
  fetchLoop responses maxRetries 0 0 (maxRetries + 1)

/-- One page of the CareersFuture search API response
(`_fetch_careers_future_jobs`): the `results` list (job items abstracted
to their identifying data, see `CFItem`), the optional `total` field, and
the `_links.next` object.  `linksNext = none` models a missing or empty
(falsy) `next` dict; `linksNext = some h` a truthy `next` dict whose
`href` entry is `h`. -/
structure SearchPage where
  results : List Nat
  total : Option Nat
  linksNext : Option (Option String)
  deriving DecidableEq, Repr

/-- Computation of the next search URL (`scraper.py` lines 656-657):
`next_page_link_info.get("href") if next_page_link_info else None`. -/
def nextUrlOf (p : SearchPage) : Option String :=
  match p.linksNext with
  | none => none
  | some h => h

/-- Truthiness of the `current_search_url` loop condition: `None` and the
empty string are falsy. -/
def urlTruthy : Option String → Bool
  | none => false
  | some s => s ≠ ""

/-- Observable outcome of the pagination loop of
`_fetch_careers_future_jobs`: the accumulated job items, the list of
`total` values logged, and the number of search API calls made. -/
structure SearchRun where
  items : List Nat
  totalsLogged : List Nat
  calls : Nat
  deriving DecidableEq, Repr

/-- Logging of the server-reported `total` (`scraper.py` lines 652-653):
it is logged only when the field is present and the call counter — which
is incremented at the top of the loop iteration — equals 1. -/
def firstCallTotalLog (total : Option Nat) (callNum : Nat) : List Nat :=
  match total with
  | some t => if callNum + 1 = 1 then [t] else []
  | none => []

/-- Model of the `while current_search_url:` pagination loop of
`_fetch_careers_future_jobs` (`scraper.py` lines 638-662), for executions
in which every page request succeeds.  `pages i` is the response to the
`i`-th remaining request; `callNum` is the value of
`total_api_calls_for_search` before this iteration; `fuel` bounds the
number of iterations (real executions terminate when the server stops
supplying a next link). -/
def searchLoop (pages : Nat → SearchPage) : Nat → Nat → SearchRun
  | 0, _ => { items := [], totalsLogged := [], calls := 0 }
  | fuel + 1, callNum =>
    let page := pages 0
    let totalLog : List Nat := firstCallTotalLog page.total callNum
    if urlTruthy (nextUrlOf page) then
      let rest := searchLoop (fun i => pages (i + 1)) fuel (callNum + 1)
      { items := page.results ++ rest.items
        totalsLogged := totalLog ++ rest.totalsLogged
        calls := 1 + rest.calls }
    else
      { items := page.results, totalsLogged := totalLog, calls := 1 }

/-- Pagination phase of `_fetch_careers_future_jobs`, entered with
`total_api_calls_for_search = 0`. -/
def fetch_careers_future_pages (pages : Nat → SearchPage) (fuel : Nat) : SearchRun :=
  searchLoop pages fuel 0

/-- Reference loop-control function written from the spec sentence
"loop control is solely the presence/absence of the next-page link": the
number of requests determined by following next links alone, ignoring
every other field of the responses. -/
def specNextLinkCalls (pages : Nat → SearchPage) : Nat → Nat
  | 0 => 0
  | fuel + 1 =>
    if urlTruthy (nextUrlOf (pages 0)) then
      1 + specNextLinkCalls (fun i => pages (i + 1)) fuel
    else 1

/-- Fields of a CareersFuture job item (a JSON dict from the search
results) that the filtering phase of `process_careers_future_query`
consumes: `uuid`, `title`, and the `name` entries of the `hiringCompany`
and `postedCompany` sub-dicts (`none` when the sub-dict is absent, not a
dict, or has no `name`). -/
structure CFJobFields where
  uuid : Option String
  title : Option String
  hiringCompanyName : Option String
  postedCompanyName : Option String
  deriving DecidableEq, Repr

/-- A raw entry of the search `results` list: either a JSON dict or some
other JSON value (skipped by the filter with a warning). -/
inductive CFItem where
  | dict : CFJobFields → CFItem
  | nondict : CFItem
  deriving DecidableEq, Repr

/-- Python truthiness filter on an optional string: `None` and the empty
string are falsy. -/
def truthyStr : Option String → Option String
  | none => none
  | some s => if s = "" then none else some s

/-- Model of `_get_careers_future_job_company_name` (`scraper.py` lines
213-226): prefer a truthy `hiringCompany.name`, fall back to a truthy
`postedCompany.name`, else `None`. -/
def get_careers_future_job_company_name : CFItem → Option String
  | CFItem.nondict => none
  | CFItem.dict j =>
    match truthyStr j.hiringCompanyName with
    | some n => some n
    | none => truthyStr j.postedCompanyName

/-- Model of Python `str()` applied to `job_item.get('uuid')`
(`scraper.py` line 786): `str(None)` is the string `"None"`. -/
def pyStr : Option String → String
  | some s => s
  | none => "None"

/-- Normalization used by the tier-2 check: `.strip().lower()`. -/
def normStr (s : String) : String := strLower (strStrip s)

/-- Filtering phase (Phase 3) of `process_careers_future_query`
(`scraper.py` lines 781-818), producing `new_job_ids_to_process` from the
items returned by the search: skip non-dicts; skip items whose `uuid` is
already known (tier 1); skip items whose truthy normalized
`(company, title)` pair is already known (tier 2); append the uuid of
every other item. -/
def careersFilterNewIds (jobs : List CFItem) (job_ids_set : List String)
    (company_title_set : List (String × String)) : List String :=
  match jobs with
  | [] => []
  | CFItem.nondict :: rest => careersFilterNewIds rest job_ids_set company_title_set
  | CFItem.dict j :: rest =>
    let job_uuid := pyStr j.uuid
    if job_uuid ≠ "" ∧ job_uuid ∈ job_ids_set then
      careersFilterNewIds rest job_ids_set company_title_set
    else
      let company_name := get_careers_future_job_company_name (CFItem.dict j)
      let normalized_company : Option String := (truthyStr company_name).map normStr
      let normalized_title : Option String := (truthyStr j.title).map normStr
      match truthyStr normalized_company, truthyStr normalized_title with
      | some nc, some nt =>
        if (nc, nt) ∈ company_title_set then
          careersFilterNewIds rest job_ids_set company_title_set
        else
          job_uuid :: careersFilterNewIds rest job_ids_set company_title_set
      | _, _ => job_uuid :: careersFilterNewIds rest job_ids_set company_title_set

/-- Tier-1 identifier filter of `process_linkedin_query` (`scraper.py`
lines 517-520): keep, in order, the scraped identifiers not present in
the Supabase identifier set. -/
def linkedinFilterNewIds (unique_ids : List String) (job_ids_set : List String) : List String :=
  unique_ids.filter fun job_id => job_id ∉ job_ids_set

/-- Detail record assembled by `_fetch_careers_future_job_details`, as far
as the persistence filter of Phase 4 consumes it. -/
structure CFJobDetails where
  job_id : Option String
  description : Option String
  deriving DecidableEq, Repr

/-- Phase 4 of `process_careers_future_query` (`scraper.py` lines
825-842): fetch details for each id of `new_job_ids_to_process` and keep
those with a non-empty description and a non-null `job_id`. -/
def careersFetchDetailsPhase (new_job_ids : List String)
    (fetchDetails : String → Option CFJobDetails) : List CFJobDetails :=
  new_job_ids.filterMap fun job_id =>
    match fetchDetails job_id with
    | none => none
    | some details =>
      match details.description with
      | none => none
      | some description =>
        if strStrip description ≠ "" then
          match details.job_id with
          | some _ => some details
          | none => none
        else none

/-- Phases 3 and 4 of `process_careers_future_query` chained together:
returns the persisted detail records together with the list of
identifiers for which a detail fetch was issued (exactly
`new_job_ids_to_process`, since Phase 4 fetches each of them). -/
def process_careers_future_pipeline (jobs : List CFItem) (job_ids_set : List String)
    (company_title_set : List (String × String))
    (fetchDetails : String → Option CFJobDetails) :
    List CFJobDetails × List String :=
  let new_job_ids := careersFilterNewIds jobs job_ids_set company_title_set
  (careersFetchDetailsPhase new_job_ids fetchDetails, new_job_ids)

/-- Daily request count recorded in the persisted state file (0 when the
file does not exist, matching the fresh state `load_quota_state` returns). -/
def persistedCount : Option QuotaFile → Int
  | none => 0
  | some f => f.daily_request_count

/-- A sequence of `check_and_enforce_quota` calls of `scraper.py`, each
driven by its oracle triple `(now0, now1, now2)`, threaded through the
persisted state file. -/
def runChecks (file : Option QuotaFile) : List (Nat × Nat × Nat) → Option QuotaFile
  | [] => file
  | o :: rest =>
    runChecks (scraper.check_and_enforce_quota file o.1 o.2.1 o.2.2).fileAfter rest

/-- Concrete two-page oracle used as a witness: first page carries a
`total` of 57 and a next link, second page ends the pagination. -/
def pagesA : Nat → SearchPage := fun i =>
  if i = 0 then { results := [1, 2], total := some 57, linksNext := some (some "u") }
  else { results := [3], total := some 57, linksNext := none }

/-- The same oracle as `pagesA` except for the `total` fields. -/
def pagesB : Nat → SearchPage := fun i =>
  if i = 0 then { results := [1, 2], total := none, linksNext := some (some "u") }
  else { results := [3], total := some 999, linksNext := none }

theorem decNat_cons (d : Nat) (l : List Nat) :
    decNat (d :: l) = decNat l * 10 + d := rfl

theorem decNat_digitsAux (fuel n : Nat) (h : n ≤ fuel) :
    decNat (digitsAux fuel n) = n := by
  induction fuel generalizing n with
  | zero =>
    interval_cases n
    rfl
  | succ fuel ih =>
    cases n with
    | zero => rfl
    | succ m =>
      rw [digitsAux, decNat_cons, ih ((m + 1) / 10) ?_]
      · omega
      · exact Nat.le_of_lt_succ (Nat.lt_of_lt_of_le (Nat.div_lt_self (Nat.succ_pos m) (by omega)) h)

/-- Round trip of the serialization model: parsing a serialized number
gives the number back. -/
theorem decNat_encNat (n : Nat) : decNat (encNat n) = n :=
  decNat_digitsAux n n le_rfl

theorem map_decNat_encNat (ts : List Nat) : (ts.map encNat).map decNat = ts := by
  induction ts with
  | nil => rfl
  | cons t ts ih => simp [decNat_encNat, ih]

theorem omap_decNat_encNat (d : Option Nat) : (d.map encNat).map decNat = d := by
  cases d with
  | none => rfl
  | some v => simp [decNat_encNat]

theorem scraper_check_reject (file : Option QuotaFile) (now0 now1 now2 : Nat)
    (h : (scraper.resetDaily (scraper.load_quota_state file).daily_request_count
        ((scraper.load_quota_state file).daily_reset_date.map decNat)
        (scraper.load_quota_state file).request_timestamps now0).1 ≥
        scraper.MAX_REQUESTS_PER_DAY) :
    scraper.check_and_enforce_quota file now0 now1 now2 =
      { allowed := false, fileAfter := file, sleeps := [] } := by
  simp only [scraper.check_and_enforce_quota]
  rw [if_pos h]

theorem scraper_check_allowed (file : Option QuotaFile) (now0 now1 now2 : Nat)
    (h : ¬ (scraper.resetDaily (scraper.load_quota_state file).daily_request_count
        ((scraper.load_quota_state file).daily_reset_date.map decNat)
        (scraper.load_quota_state file).request_timestamps now0).1 ≥
        scraper.MAX_REQUESTS_PER_DAY) :
    ∃ ts sl, ts ≠ [] ∧
      scraper.check_and_enforce_quota file now0 now1 now2 =
        { allowed := true
          fileAfter := some (scraper.save_quota_state
            ((scraper.resetDaily (scraper.load_quota_state file).daily_request_count
              ((scraper.load_quota_state file).daily_reset_date.map decNat)
              (scraper.load_quota_state file).request_timestamps now0).1 + 1)
            (some (scraper.resetDaily (scraper.load_quota_state file).daily_request_count
              ((scraper.load_quota_state file).daily_reset_date.map decNat)
              (scraper.load_quota_state file).request_timestamps now0).2.1) ts)
          sleeps := sl } := by
  simp only [scraper.check_and_enforce_quota]
  rw [if_neg h]
  exact ⟨_, _, by simp, rfl⟩

theorem persistedCount_check_le (file : Option QuotaFile) (now0 now1 now2 : Nat)
    (h : persistedCount file ≤ scraper.MAX_REQUESTS_PER_DAY) :
    persistedCount (scraper.check_and_enforce_quota file now0 now1 now2).fileAfter ≤
      scraper.MAX_REQUESTS_PER_DAY := by
  by_cases hc : (scraper.resetDaily (scraper.load_quota_state file).daily_request_count
      ((scraper.load_quota_state file).daily_reset_date.map decNat)
      (scraper.load_quota_state file).request_timestamps now0).1 ≥
      scraper.MAX_REQUESTS_PER_DAY
  · rw [scraper_check_reject file now0 now1 now2 hc]
    exact h
  · obtain ⟨ts, sl, -, heq⟩ := scraper_check_allowed file now0 now1 now2 hc
    rw [heq]
    show (scraper.save_quota_state _ _ _).daily_request_count ≤ scraper.MAX_REQUESTS_PER_DAY
    show (scraper.resetDaily _ _ _ _).1 + 1 ≤ scraper.MAX_REQUESTS_PER_DAY
    omega

theorem persistedCount_runChecks_le (oracles : List (Nat × Nat × Nat))
    (file : Option QuotaFile)
    (h : persistedCount file ≤ scraper.MAX_REQUESTS_PER_DAY) :
    persistedCount (runChecks file oracles) ≤ scraper.MAX_REQUESTS_PER_DAY := by
  induction oracles generalizing file with
  | nil => exact h
  | cons o rest ih =>
    exact ih _ (persistedCount_check_le file o.1 o.2.1 o.2.2 h)

theorem quota_release_raises_of_timestamps (f : QuotaFile)
    (h : f.request_timestamps ≠ []) :
    quota_release (some f) = { raised := true, fileAfter := some f } := by
  simp only [quota_release, scraper.load_quota_state]
  cases hts : f.request_timestamps with
  | nil => exact absurd hts h
  | cons t rest => rfl

theorem quota_release_empty (c : Int) (d : Option Nat) :
    quota_release (some (scraper.save_quota_state c d [])) =
      { raised := false
        fileAfter := some (scraper.save_quota_state (max 0 (c - 1)) d []) } := by
  simp only [quota_release, scraper.load_quota_state, scraper.save_quota_state,
    reparse_timestamps, List.map_nil, omap_decNat_encNat]

theorem scraper_check_of_not_allowed (file : Option QuotaFile) (now0 now1 now2 : Nat)
    (h : (scraper.check_and_enforce_quota file now0 now1 now2).allowed = false) :
    scraper.check_and_enforce_quota file now0 now1 now2 =
      { allowed := false, fileAfter := file, sleeps := [] } := by
  by_cases hc : (scraper.resetDaily (scraper.load_quota_state file).daily_request_count
      ((scraper.load_quota_state file).daily_reset_date.map decNat)
      (scraper.load_quota_state file).request_timestamps now0).1 ≥
      scraper.MAX_REQUESTS_PER_DAY
  · exact scraper_check_reject file now0 now1 now2 hc
  · obtain ⟨ts, sl, -, heq⟩ := scraper_check_allowed file now0 now1 now2 hc
    rw [heq] at h
    simp at h

/-- Claim C1: across any sequence of `check_and_enforce_quota` calls the
persisted daily request count never exceeds `MAX_REQUESTS_PER_DAY`, and
whenever the loaded daily count after the new-day reset step is at or
above the cap, the call returns `False` immediately, performs no sleep,
and leaves the persisted state file exactly as it was. -/
theorem quota_daily_cap_invariant (file : Option QuotaFile)
    (oracles : List (Nat × Nat × Nat)) (now0 now1 now2 : Nat) :
    (persistedCount file ≤ scraper.MAX_REQUESTS_PER_DAY →
      persistedCount (runChecks file oracles) ≤ scraper.MAX_REQUESTS_PER_DAY) ∧
    ((scraper.resetDaily (scraper.load_quota_state file).daily_request_count
        ((scraper.load_quota_state file).daily_reset_date.map decNat)
        (scraper.load_quota_state file).request_timestamps now0).1 ≥
        scraper.MAX_REQUESTS_PER_DAY →
      scraper.check_and_enforce_quota file now0 now1 now2 =
        { allowed := false, fileAfter := file, sleeps := [] }) :=
  ⟨persistedCount_runChecks_le oracles file,
   scraper_check_reject file now0 now1 now2⟩

/-- Witness for C1 at a concrete saturated state: count 20 with today's
reset date; the sequence leaves the count at 20 and the single call
rejects without sleeping or writing. -/
theorem quota_daily_cap_invariant_witness :
    persistedCount (runChecks (some (scraper.save_quota_state 20 (some 100) []))
      [(8640000, 8640001, 8640002)]) ≤ scraper.MAX_REQUESTS_PER_DAY ∧
    scraper.check_and_enforce_quota (some (scraper.save_quota_state 20 (some 100) []))
      8640000 8640001 8640002 =
      { allowed := false, fileAfter := some (scraper.save_quota_state 20 (some 100) [])
        sleeps := [] } :=
  ⟨(quota_daily_cap_invariant (some (scraper.save_quota_state 20 (some 100) []))
      [(8640000, 8640001, 8640002)] 8640000 8640001 8640002).1 (by decide),
   (quota_daily_cap_invariant (some (scraper.save_quota_state 20 (some 100) []))
      [(8640000, 8640001, 8640002)] 8640000 8640001 8640002).2 (by decide)⟩

/-- Claim C2 counterexample: starting from the fresh state, one admitted
call sets the persisted daily count to 1 (pre-admission value 0); the
compensating release then raises a `TypeError` (the timestamp recorded by
the admission is re-parsed with `fromisoformat` although it is already a
`datetime`), so the persisted count stays 1 instead of returning to 0.
Moreover release is not idempotent on its non-raising path: from a
timestamp-free state with count 2, the first release persists 1 and a
second release persists 0. -/
theorem release_restore_counterexample :
    (scraper.check_and_enforce_quota none 8640000 8640001 8640002).allowed = true ∧
    persistedCount (scraper.check_and_enforce_quota none 8640000 8640001 8640002).fileAfter = 1 ∧
    (quota_release (scraper.check_and_enforce_quota none 8640000 8640001
      8640002).fileAfter).raised = true ∧
    persistedCount (quota_release (scraper.check_and_enforce_quota none 8640000 8640001
      8640002).fileAfter).fileAfter = 1 ∧
    persistedCount (quota_release (some (scraper.save_quota_state 2 (some 100)
      []))).fileAfter = 1 ∧
    persistedCount (quota_release (quota_release (some (scraper.save_quota_state 2 (some 100)
      []))).fileAfter).fileAfter = 0 := by
  decide

/-- Claim C2 as amended: when the reloaded state carries at least one
recorded timestamp — always the case immediately after an admitted call —
the release raises a `TypeError` before persisting anything, leaving the
daily count at its post-admission value; only when the reloaded timestamp
list is empty does one release persist `max 0 (count - 1)`, and in that
case a second accidental release decrements again (to `count - 2` when
`count ≥ 2`), so release is not idempotent. -/
theorem release_after_admission_behavior (c : Int) (d : Option Nat) (ts : List Nat)
    (hts : ts ≠ []) :
    quota_release (some (scraper.save_quota_state c d ts)) =
      { raised := true, fileAfter := some (scraper.save_quota_state c d ts) } ∧
    quota_release (some (scraper.save_quota_state c d [])) =
      { raised := false, fileAfter := some (scraper.save_quota_state (max 0 (c - 1)) d []) } ∧
    (2 ≤ c →
      persistedCount (quota_release (quota_release (some (scraper.save_quota_state c d
        []))).fileAfter).fileAfter = c - 2) := by
  refine ⟨?_, quota_release_empty c d, ?_⟩
  · apply quota_release_raises_of_timestamps
    simp [scraper.save_quota_state, hts]
  · intro hc
    rw [quota_release_empty c d, quota_release_empty]
    show (scraper.save_quota_state _ _ _).daily_request_count = c - 2
    show max 0 (max 0 (c - 1) - 1) = c - 2
    omega

/-- Witness for the amended C2 at count 5, date 100, one timestamp. -/
theorem release_after_admission_behavior_witness :
    quota_release (some (scraper.save_quota_state 5 (some 100) [7])) =
      { raised := true, fileAfter := some (scraper.save_quota_state 5 (some 100) [7]) } ∧
    quota_release (some (scraper.save_quota_state 5 (some 100) [])) =
      { raised := false, fileAfter := some (scraper.save_quota_state (max 0 (5 - 1))
        (some 100) []) } ∧
    persistedCount (quota_release (quota_release (some (scraper.save_quota_state 5 (some 100)
      []))).fileAfter).fileAfter = 5 - 2 := by
  have h := release_after_admission_behavior 5 (some 100) [7] (by decide)
  exact ⟨h.1, h.2.1, h.2.2 (by decide)⟩

/-- Claim C7: saving the quota state and loading it back is lossless — the
same daily count, the same reset date (once its stored string is parsed),
and the same timestamp sequence. -/
theorem quota_state_roundtrip (c : Int) (d : Option Nat) (ts : List Nat) :
    (scraper.load_quota_state (some (scraper.save_quota_state c d ts))).daily_request_count
      = c ∧
    (scraper.load_quota_state (some (scraper.save_quota_state c d
      ts))).daily_reset_date.map decNat = d ∧
    (scraper.load_quota_state (some (scraper.save_quota_state c d ts))).request_timestamps
      = ts := by
  refine ⟨rfl, ?_, ?_⟩
  · show ((d.map encNat).map decNat) = d
    exact omap_decNat_encNat d
  · show ((ts.map encNat).map decNat) = ts
    exact map_decNat_encNat ts

/-- Claim C8: whatever the persisted state, the compensating release
leaves the stored `request_timestamps` and `daily_reset_date` fields of
`quota_state.json` byte-identical; any change is confined to the
`daily_request_count` field (which the release either floor-decrements,
or — on its raising path — leaves unchanged). -/
theorem release_frame_timestamps_date (c : Int) (d : Option Nat) (ts : List Nat) :
    ∃ f2 : QuotaFile,
      (quota_release (some (scraper.save_quota_state c d ts))).fileAfter = some f2 ∧
      f2.request_timestamps = (scraper.save_quota_state c d ts).request_timestamps ∧
      f2.daily_reset_date = (scraper.save_quota_state c d ts).daily_reset_date ∧
      (f2.daily_request_count = c ∨ f2.daily_request_count = max 0 (c - 1)) := by
  cases ts with
  | nil =>
    rw [quota_release_empty c d]
    exact ⟨_, rfl, rfl, rfl, Or.inr rfl⟩
  | cons t rest =>
    rw [quota_release_raises_of_timestamps _ (by simp [scraper.save_quota_state])]
    exact ⟨_, rfl, rfl, rfl, Or.inl rfl⟩

/-- Claim C10: the two duplicated quota implementations name the same
state file but enforce caps 20 and 19; on a state dated today with daily
count 19 the scraper's check admits while the resume parser's check
rejects, so the two admission functions are not extensionally equal. -/
theorem duplicated_quota_caps_differ :
    scraper.QUOTA_STATE_FILE = resume.QUOTA_STATE_FILE ∧
    scraper.MAX_REQUESTS_PER_DAY = 20 ∧
    resume.MAX_REQUESTS_PER_DAY = 19 ∧
    (scraper.check_and_enforce_quota (some (scraper.save_quota_state 19 (some (dateOf 8640000))
      [])) 8640000 8640001 8640002).allowed = true ∧
    (resume.check_and_enforce_quota (some (scraper.save_quota_state 19 (some (dateOf 8640000))
      [])) 8640000 8640001 8640002).allowed = false ∧
    scraper.check_and_enforce_quota (some (scraper.save_quota_state 19 (some (dateOf 8640000))
      [])) 8640000 8640001 8640002 ≠
    resume.check_and_enforce_quota (some (scraper.save_quota_state 19 (some (dateOf 8640000))
      [])) 8640000 8640001 8640002 := by
  refine ⟨rfl, rfl, rfl, by decide, by decide, ?_⟩
  decide

/-- Claim C6: the enrichment operation returns the empty string unchanged
with no quota check and no external call; and on any input, when the
quota check rejects, it returns the input unchanged, leaves the state
file untouched, and makes no external call. -/
theorem enrichment_gate_identity (text : String) (file : Option QuotaFile)
    (now0 now1 now2 : Nat) (gen : Except Unit String)
    (hrej : (scraper.check_and_enforce_quota file now0 now1 now2).allowed = false) :
    convert_plain_text_to_markdown_with_ai "" file now0 now1 now2 gen =
      { result := Except.ok "", fileAfter := file, quotaChecked := false
        externalCalled := false } ∧
    (convert_plain_text_to_markdown_with_ai text file now0 now1 now2 gen).result
      = Except.ok text ∧
    (convert_plain_text_to_markdown_with_ai text file now0 now1 now2 gen).fileAfter = file ∧
    (convert_plain_text_to_markdown_with_ai text file now0 now1 now2 gen).externalCalled
      = false := by
  have hchk := scraper_check_of_not_allowed file now0 now1 now2 hrej
  refine ⟨rfl, ?_⟩
  by_cases ht : text = ""
  · subst ht
    exact ⟨rfl, rfl, rfl⟩
  · unfold convert_plain_text_to_markdown_with_ai
    rw [if_neg ht, hchk]
    exact ⟨rfl, rfl, rfl⟩

/-- Witness for C6 at a saturated concrete state (count 20, today's
date), on which the quota check rejects. -/
theorem enrichment_gate_identity_witness :
    convert_plain_text_to_markdown_with_ai "" (some (scraper.save_quota_state 20 (some 100) []))
      8640000 8640001 8640002 (Except.ok "md") =
      { result := Except.ok "", fileAfter := some (scraper.save_quota_state 20 (some 100) [])
        quotaChecked := false, externalCalled := false } ∧
    (convert_plain_text_to_markdown_with_ai "hello" (some (scraper.save_quota_state 20
      (some 100) [])) 8640000 8640001 8640002 (Except.ok "md")).result = Except.ok "hello" ∧
    (convert_plain_text_to_markdown_with_ai "hello" (some (scraper.save_quota_state 20
      (some 100) [])) 8640000 8640001 8640002 (Except.ok "md")).fileAfter =
      some (scraper.save_quota_state 20 (some 100) []) ∧
    (convert_plain_text_to_markdown_with_ai "hello" (some (scraper.save_quota_state 20
      (some 100) [])) 8640000 8640001 8640002 (Except.ok "md")).externalCalled = false := by
  have h := enrichment_gate_identity "hello" (some (scraper.save_quota_state 20 (some 100) []))
    8640000 8640001 8640002 (Except.ok "md") (by decide)
  exact h

/-- Claim C4 counterexample: with a failing external call after an
admitted check, the scraper's enrichment caller neither returns the raw
input nor contains the failure — the compensating release raises a
`TypeError` (re-parsing `datetime` objects), the exception propagates to
the caller, and the persisted daily count stays at its post-admission
value 1; the resume-parser caller likewise propagates (it re-raises by
design). -/
theorem gen_failure_degrade_counterexample :
    (convert_plain_text_to_markdown_with_ai "x" none 8640000 8640001 8640002
      (Except.error ())).result = Except.error () ∧
    persistedCount (convert_plain_text_to_markdown_with_ai "x" none 8640000 8640001 8640002
      (Except.error ())).fileAfter = 1 ∧
    (parse_resume_with_ai none 8640000 8640001 8640002 (Except.error ())).result
      = Except.error () :=
  ⟨rfl, by decide, rfl⟩

/-- Claim C4 as amended: when the external call fails after an admitted
quota check, the scraper's caller attempts the compensating release, which
raises a `TypeError` (the admission always leaves at least one recorded
timestamp, and the release re-parses the already-parsed timestamps), so
the exception propagates to the caller instead of the raw input being
returned, and the persisted state keeps the incremented count; the
resume-parser caller re-raises after its release attempt, so its caller
always sees an exception as well. -/
theorem gen_failure_release_and_propagate (text : String) (file gfile : Option QuotaFile)
    (now0 now1 now2 g0 g1 g2 : Nat)
    (htext : text ≠ "")
    (hallow : (scraper.check_and_enforce_quota file now0 now1 now2).allowed = true)
    (gallow : (resume.check_and_enforce_quota gfile g0 g1 g2).allowed = true) :
    (convert_plain_text_to_markdown_with_ai text file now0 now1 now2
      (Except.error ())).result = Except.error () ∧
    (convert_plain_text_to_markdown_with_ai text file now0 now1 now2
      (Except.error ())).fileAfter =
      (scraper.check_and_enforce_quota file now0 now1 now2).fileAfter ∧
    (parse_resume_with_ai gfile g0 g1 g2 (Except.error ())).result = Except.error () := by
  have hnotfalse : ¬((scraper.check_and_enforce_quota file now0 now1 now2).allowed = false) := by
    rw [hallow]
    decide
  have hrel : quota_release (scraper.check_and_enforce_quota file now0 now1 now2).fileAfter =
      { raised := true
        fileAfter := (scraper.check_and_enforce_quota file now0 now1 now2).fileAfter } := by
    by_cases hc : (scraper.resetDaily (scraper.load_quota_state file).daily_request_count
        ((scraper.load_quota_state file).daily_reset_date.map decNat)
        (scraper.load_quota_state file).request_timestamps now0).1 ≥
        scraper.MAX_REQUESTS_PER_DAY
    · rw [scraper_check_reject file now0 now1 now2 hc] at hallow
      simp at hallow
    · obtain ⟨ts, sl, hne, heq⟩ := scraper_check_allowed file now0 now1 now2 hc
      rw [heq]
      exact quota_release_raises_of_timestamps _ (by simp [scraper.save_quota_state, hne])
  have hgnotfalse : ¬((resume.check_and_enforce_quota gfile g0 g1 g2).allowed = false) := by
    rw [gallow]
    decide
  refine ⟨?_, ?_, ?_⟩
  · unfold convert_plain_text_to_markdown_with_ai
    rw [if_neg htext, if_neg hnotfalse, hrel]
    rfl
  · unfold convert_plain_text_to_markdown_with_ai
    rw [if_neg htext, if_neg hnotfalse, hrel]
  · unfold parse_resume_with_ai
    rw [if_neg hgnotfalse]

/-- Witness for the amended C4 at concrete states: an under-cap scraper
state (count 3) and the fresh state for the resume parser. -/
theorem gen_failure_release_and_propagate_witness :
    (convert_plain_text_to_markdown_with_ai "x" (some (scraper.save_quota_state 3 (some 100)
      [])) 8640000 8640001 8640002 (Except.error ())).result = Except.error () ∧
    (convert_plain_text_to_markdown_with_ai "x" (some (scraper.save_quota_state 3 (some 100)
      [])) 8640000 8640001 8640002 (Except.error ())).fileAfter =
      (scraper.check_and_enforce_quota (some (scraper.save_quota_state 3 (some 100) []))
        8640000 8640001 8640002).fileAfter ∧
    (parse_resume_with_ai none 8640010 8640011 8640012 (Except.error ())).result
      = Except.error () := by
  have h := gen_failure_release_and_propagate "x" (some (scraper.save_quota_state 3 (some 100)
    [])) none 8640000 8640001 8640002 8640010 8640011 8640012 (by decide) (by decide) (by decide)
  exact h

theorem fetchLoop_all_429 (responses : Nat → Outcome) (m : Nat)
    (h429 : ∀ i, responses i = Outcome.httpError 429) :
    ∀ fuel attempt retries, retries + fuel = m + 1 → 1 ≤ fuel →
      fetchLoop responses m attempt retries fuel =
        { succeeded := false, attempts := attempt + fuel, retries := m } := by
  intro fuel
  induction fuel with
  | zero =>
    intro attempt retries hsum h1
    omega
  | succ fuel ih =>
    intro attempt retries hsum h1
    simp only [fetchLoop, h429]
    cases fuel with
    | zero =>
      have hr : retries = m := by omega
      subst hr
      rw [if_neg (by simp)]
    | succ fuel2 =>
      have hlt : retries < m := by omega
      rw [if_pos ⟨trivial, hlt⟩, ih (attempt + 1) (retries + 1) (by omega) (by omega)]
      have harith : attempt + 1 + (fuel2 + 1) = attempt + (fuel2 + 1 + 1) := by omega
      rw [harith]

/-- Claim C5: on repeated HTTP 429 responses the retry loop makes exactly
`maxRetries + 1` attempts (the retry counter ends at `maxRetries`) and
still reports failure with the counter saturated (retryable-exhausted);
on a first response that is any other HTTP error (e.g. 404) or a
transport failure, it aborts after a single attempt with zero retries. -/
theorem resilient_fetch_retry_counts (responses responsesO responsesT : Nat → Outcome)
    (m code : Nat)
    (h429 : ∀ i, responses i = Outcome.httpError 429)
    (hother : responsesO 0 = Outcome.httpError code) (hcode : code ≠ 429)
    (htrans : responsesT 0 = Outcome.transportError) :
    fetch_with_retries responses m =
      { succeeded := false, attempts := m + 1, retries := m } ∧
    fetch_with_retries responsesO m = { succeeded := false, attempts := 1, retries := 0 } ∧
    fetch_with_retries responsesT m = { succeeded := false, attempts := 1, retries := 0 } := by
  refine ⟨?_, ?_, ?_⟩
  · have h := fetchLoop_all_429 responses m h429 (m + 1) 0 0 (by omega) (by omega)
    simpa [fetch_with_retries] using h
  · show fetchLoop responsesO m 0 0 (m + 1) = _
    simp only [fetchLoop, hother]
    rw [if_neg (by rintro ⟨h1, -⟩; exact hcode h1)]
  · show fetchLoop responsesT m 0 0 (m + 1) = _
    simp only [fetchLoop, htrans]

/-- Witness for C5 with `maxRetries = 3`, an all-429 oracle, a 404 first
response, and a transport failure. -/
theorem resilient_fetch_retry_counts_witness :
    fetch_with_retries (fun _ => Outcome.httpError 429) 3 =
      { succeeded := false, attempts := 4, retries := 3 } ∧
    fetch_with_retries (fun _ => Outcome.httpError 404) 3 =
      { succeeded := false, attempts := 1, retries := 0 } ∧
    fetch_with_retries (fun _ => Outcome.transportError) 3 =
      { succeeded := false, attempts := 1, retries := 0 } := by
  have h := resilient_fetch_retry_counts (fun _ => Outcome.httpError 429)
    (fun _ => Outcome.httpError 404) (fun _ => Outcome.transportError) 3 404
    (fun _ => rfl) rfl (by decide) rfl
  exact h

theorem firstCallTotalLog_pos (total : Option Nat) (k : Nat) (hk : 1 ≤ k) :
    firstCallTotalLog total k = [] := by
  cases total with
  | none => rfl
  | some t =>
    simp only [firstCallTotalLog]
    rw [if_neg (by omega)]

theorem searchLoop_totalsLogged_later (fuel : Nat) :
    ∀ (pages : Nat → SearchPage) (k : Nat), 1 ≤ k →
      (searchLoop pages fuel k).totalsLogged = [] := by
  induction fuel with
  | zero =>
    intro pages k hk
    rfl
  | succ fuel ih =>
    intro pages k hk
    simp only [searchLoop]
    by_cases hu : urlTruthy (nextUrlOf (pages 0)) = true
    · rw [if_pos hu]
      simp [firstCallTotalLog_pos _ _ hk, ih _ (k + 1) (by omega)]
    · rw [if_neg hu]
      simp [firstCallTotalLog_pos _ _ hk]

theorem searchLoop_calls_spec (fuel : Nat) :
    ∀ (pages : Nat → SearchPage) (k : Nat),
      (searchLoop pages fuel k).calls = specNextLinkCalls pages fuel := by
  induction fuel with
  | zero =>
    intro pages k
    rfl
  | succ fuel ih =>
    intro pages k
    simp only [searchLoop, specNextLinkCalls]
    by_cases hu : urlTruthy (nextUrlOf (pages 0)) = true
    · rw [if_pos hu, if_pos hu]
      simp [ih]
    · rw [if_neg hu, if_neg hu]

theorem searchLoop_frame (fuel : Nat) :
    ∀ (pages pages2 : Nat → SearchPage) (k k2 : Nat),
      (∀ i, (pages i).results = (pages2 i).results ∧
        (pages i).linksNext = (pages2 i).linksNext) →
      (searchLoop pages fuel k).calls = (searchLoop pages2 fuel k2).calls ∧
      (searchLoop pages fuel k).items = (searchLoop pages2 fuel k2).items := by
  induction fuel with
  | zero =>
    intro pages pages2 k k2 hag
    exact ⟨rfl, rfl⟩
  | succ fuel ih =>
    intro pages pages2 k k2 hag
    have h0 := hag 0
    have hnext : nextUrlOf (pages 0) = nextUrlOf (pages2 0) := by
      simp only [nextUrlOf, h0.2]
    simp only [searchLoop]
    by_cases hu : urlTruthy (nextUrlOf (pages 0)) = true
    · rw [if_pos hu, if_pos (by rw [← hnext]; exact hu)]
      have hrec := ih (fun i => pages (i + 1)) (fun i => pages2 (i + 1)) (k + 1) (k2 + 1)
        (fun i => hag (i + 1))
      exact ⟨by simp [hrec.1], by simp [h0.1, hrec.2]⟩
    · rw [if_neg hu, if_neg (by rw [← hnext]; exact hu)]
      exact ⟨rfl, by simp [h0.1]⟩

/-- Claim C9: the pagination loop issues another request exactly when the
previous response carries a truthy `_links.next.href` (its request count
equals the reference function that follows next links alone); the
server-reported `total` is logged exactly on the first page (later pages
log nothing); and the totals have no effect on loop control — an oracle
differing only in `total` fields yields the same number of calls and the
same items. -/
theorem careers_future_pagination (pages pages2 : Nat → SearchPage) (fuel : Nat)
    (hfuel : 1 ≤ fuel)
    (hagree : ∀ i, (pages i).results = (pages2 i).results ∧
      (pages i).linksNext = (pages2 i).linksNext) :
    (fetch_careers_future_pages pages fuel).calls = specNextLinkCalls pages fuel ∧
    (fetch_careers_future_pages pages fuel).totalsLogged =
      (match (pages 0).total with | some t => [t] | none => []) ∧
    (fetch_careers_future_pages pages fuel).calls =
      (fetch_careers_future_pages pages2 fuel).calls ∧
    (fetch_careers_future_pages pages fuel).items =
      (fetch_careers_future_pages pages2 fuel).items := by
  refine ⟨searchLoop_calls_spec fuel pages 0, ?_, (searchLoop_frame fuel pages pages2 0 0
    hagree).1, (searchLoop_frame fuel pages pages2 0 0 hagree).2⟩
  obtain ⟨f, rfl⟩ : ∃ f, fuel = f + 1 := ⟨fuel - 1, by omega⟩
  show (searchLoop pages (f + 1) 0).totalsLogged = _
  simp only [searchLoop]
  have hfirst : firstCallTotalLog (pages 0).total 0 =
      (match (pages 0).total with | some t => [t] | none => []) := by
    cases (pages 0).total with
    | none => rfl
    | some t => rfl
  by_cases hu : urlTruthy (nextUrlOf (pages 0)) = true
  · rw [if_pos hu]
    simp [searchLoop_totalsLogged_later f _ 1 le_rfl, hfirst]
  · rw [if_neg hu]
    simpa using hfirst

/-- Witness for C9 on the two-page oracles `pagesA` and `pagesB`, which
differ only in their `total` fields. -/
theorem careers_future_pagination_witness :
    (fetch_careers_future_pages pagesA 2).calls = specNextLinkCalls pagesA 2 ∧
    (fetch_careers_future_pages pagesA 2).totalsLogged =
      (match (pagesA 0).total with | some t => [t] | none => []) ∧
    (fetch_careers_future_pages pagesA 2).calls =
      (fetch_careers_future_pages pagesB 2).calls ∧
    (fetch_careers_future_pages pagesA 2).items =
      (fetch_careers_future_pages pagesB 2).items := by
  have h := careers_future_pagination pagesA pagesB 2 (by omega)
    (fun i => by by_cases hi : i = 0 <;> simp [pagesA, pagesB, hi])
  exact h

/-- Claim C3 counterexample: given a known pair set containing
`("acme", "engineer")` and a board-source candidate `X` with that exact
normalized company/title and an identifier that is not in the known-ID
set, the pipeline issues no detail fetch at all for `X` (the fetch list —
second component — is empty) and persists nothing: the pair filter runs
on the listing items before the detail-fetch phase, not
"post-detail-fetch" as the claim states. -/
theorem tier2_timing_counterexample :
    ("X" ∉ ([] : List String)) ∧
    (process_careers_future_pipeline
      [CFItem.dict
        { uuid := some "X", title := some "Engineer",
          hiringCompanyName := some "Acme", postedCompanyName := none }]
      [] [("acme", "engineer")]
      (fun j => some { job_id := some j, description := some "desc" })).2 = [] ∧
    (process_careers_future_pipeline
      [CFItem.dict
        { uuid := some "X", title := some "Engineer",
          hiringCompanyName := some "Acme", postedCompanyName := none }]
      [] [("acme", "engineer")]
      (fun j => some { job_id := some j, description := some "desc" })).1 = [] :=
  ⟨by decide, by decide, by decide⟩

/-- Claim C3 as amended: (a) the identifier filter drops exactly the
candidate refs whose identifier is in the known-ID set, preserving order,
and on known IDs {A, B} with candidates [A, C, D] yields [C, D]; (b) the
board-source pair filter — applied to the search-listing items after the
identifier check and before any detail fetch or persistence — drops an
item whose truthy normalized `(company, title)` pair is in the known pair
set even when its identifier is new, and retains an item that lacks a
usable company or title for that check. -/
theorem dedup_filter_behavior
    (ids known : List String)
    (jd jr : CFJobFields) (rest restR : List CFItem)
    (idSet : List String) (pairSet : List (String × String)) (nc nt : String)
    (hdnew : ¬(pyStr jd.uuid ≠ "" ∧ pyStr jd.uuid ∈ idSet))
    (hdc : truthyStr ((truthyStr (get_careers_future_job_company_name
      (CFItem.dict jd))).map normStr) = some nc)
    (hdt : truthyStr ((truthyStr jd.title).map normStr) = some nt)
    (hdpair : (nc, nt) ∈ pairSet)
    (hrnew : ¬(pyStr jr.uuid ≠ "" ∧ pyStr jr.uuid ∈ idSet))
    (hrfail : truthyStr ((truthyStr (get_careers_future_job_company_name
      (CFItem.dict jr))).map normStr) = none ∨
      truthyStr ((truthyStr jr.title).map normStr) = none) :
    (linkedinFilterNewIds ids known).Sublist ids ∧
    (∀ x, x ∈ linkedinFilterNewIds ids known ↔ x ∈ ids ∧ x ∉ known) ∧
    linkedinFilterNewIds ["A", "C", "D"] ["A", "B"] = ["C", "D"] ∧
    careersFilterNewIds (CFItem.dict jd :: rest) idSet pairSet =
      careersFilterNewIds rest idSet pairSet ∧
    careersFilterNewIds (CFItem.dict jr :: restR) idSet pairSet =
      pyStr jr.uuid :: careersFilterNewIds restR idSet pairSet := by
  refine ⟨List.filter_sublist ids, ?_, by decide, ?_, ?_⟩
  · intro x
    simp [linkedinFilterNewIds, List.mem_filter]
  · simp only [careersFilterNewIds]
    rw [if_neg hdnew]
    simp only [hdc, hdt]
    rw [if_pos hdpair]
  · simp only [careersFilterNewIds]
    rw [if_neg hrnew]
    rcases hrc : truthyStr ((truthyStr (get_careers_future_job_company_name
        (CFItem.dict jr))).map normStr) with _ | nc2 <;>
      rcases hrt : truthyStr ((truthyStr jr.title).map normStr) with _ | nt2 <;>
      simp only [hrc, hrt]
    rw [hrc, hrt] at hrfail
    rcases hrfail with hf | hf <;> exact absurd hf (by simp)

/-- Witness for the amended C3: the spec's [A,C,D] example; a pair-known
item `Y` with a new identifier is dropped by the listing filter; an item
`W` with no usable title is retained. -/
theorem dedup_filter_behavior_witness :
    ("C" ∈ linkedinFilterNewIds ["A", "C", "D"] ["A", "B"] ↔
      "C" ∈ ["A", "C", "D"] ∧ "C" ∉ ["A", "B"]) ∧
    linkedinFilterNewIds ["A", "C", "D"] ["A", "B"] = ["C", "D"] ∧
    careersFilterNewIds
      [CFItem.dict
        { uuid := some "Y", title := some " Engineer ",
          hiringCompanyName := some "Acme", postedCompanyName := none }]
      ["Z"] [("acme", "engineer")] = [] ∧
    careersFilterNewIds
      [CFItem.dict
        { uuid := some "W", title := none,
          hiringCompanyName := some "Acme", postedCompanyName := none }]
      ["Z"] [("acme", "engineer")] = ["W"] := by
  have h := dedup_filter_behavior ["A", "C", "D"] ["A", "B"]
    { uuid := some "Y", title := some " Engineer ",
      hiringCompanyName := some "Acme", postedCompanyName := none }
    { uuid := some "W", title := none,
      hiringCompanyName := some "Acme", postedCompanyName := none }
    [] [] ["Z"] [("acme", "engineer")] "acme" "engineer"
    (by decide) (by decide) (by decide) (by decide) (by decide) (Or.inr (by decide))
  exact ⟨h.2.1 "C", h.2.2.1, h.2.2.2.1.trans rfl, h.2.2.2.2.trans rfl⟩
